import Mathlib

/-!
Shallow embedding of the VM device kill-switch daemon
(vm_killswitch_implementation.py) and verification of its specified
properties.

Modelling conventions:
- Python dictionaries keyed by name (self.devices, self.vms) become
  insertion-ordered association lists of records; re-inserting an existing
  key overwrites the value in place, as Python dicts do.
- The outside world seen through one QMP session (socket connect, command
  responses, exceptions) is an oracle value passed to each attach/detach
  call; a sweep receives an oracle indexed by the position of the device in
  the registry.
- Fallible configuration loading returns an Option; returning none models
  the process exiting with a fatal configuration error (sys.exit(1)).
- Logging is not modelled; instead each sweep returns an explicit trace of
  the attach/detach attempts it performed, and the QMP commands actually
  sent during a call are part of the call's result.
-/

namespace VMKillswitch

/-- DeviceType enum from the source (values "pci" and "usb"). -/
inductive DeviceType where
  | PCI
  | USB
deriving DecidableEq

/-- DeviceState enum from the source. -/
inductive DeviceState where
  | ATTACHED
  | DETACHED
  | TRANSITIONING
  | ERROR
deriving DecidableEq

/-- The Device dataclass from the source. -/
structure Device where
  name : String
  device_type : DeviceType
  device_id : String
  vendor_id : Option String := none
  product_id : Option String := none
  target_vm : String := ""
  state : DeviceState := DeviceState.DETACHED
deriving DecidableEq

/-- The VM dataclass from the source. -/
structure VM where
  name : String
  qmp_socket : String
  devices : List String
  running : Bool := false
deriving DecidableEq

/-- One QMP request object as built by QMPClient.execute_command:
the command name and its keyword arguments. -/
structure QMPCommand where
  execute : String
  args : List (String × String)
deriving DecidableEq

/-- Python f-string interpolation of an optional value: None prints as
the string "None" (relevant because attach interpolates vendor_id and
product_id without checking for presence). -/
def pyStr : Option String → String
  | none => "None"
  | some s => s

/-- device.name.replace(' ', '_') as used when synthesizing QMP device ids. -/
def sanitizeName (s : String) : String :=
  s.replace " " "_"

/-- The kind tag used in synthesized QMP device ids ("usb" or "pci"). -/
def kindTag : DeviceType → String
  | DeviceType.USB => "usb"
  | DeviceType.PCI => "pci"

/-- The device_add command built in attach_device_to_vm (lines 255-271):
USB devices get driver usb-host with interpolated vendor/product ids, PCI
devices get driver vfio-pci with the host bus address. -/
def attach_command (d : Device) : QMPCommand :=
  match d.device_type with
  | DeviceType.USB =>
    { execute := "device_add",
      args := [("driver", "usb-host"),
               ("id", "usb-" ++ sanitizeName d.name),
               ("vendorid", "0x" ++ pyStr d.vendor_id),
               ("productid", "0x" ++ pyStr d.product_id)] }
  | DeviceType.PCI =>
    { execute := "device_add",
      args := [("driver", "vfio-pci"),
               ("id", "pci-" ++ sanitizeName d.name),
               ("host", d.device_id)] }

/-- The device_del command built in detach_device_from_vm (lines 304-306). -/
def detach_command (d : Device) : QMPCommand :=
  { execute := "device_del",
    args := [("id",
      (if d.device_type = DeviceType.USB then "usb" else "pci") ++ "-" ++
        sanitizeName d.name)] }

/-- Outcome of the external world for one attach/detach call:
either QMPClient.connect fails (returns False or raises), or the command
round-trip returns a response carrying an error field, or execute_command
raises, or everything succeeds. -/
inductive QMPOutcome where
  | connectFail
  | cmdError
  | cmdException
  | ok
deriving DecidableEq

/-- Result of one attach/detach call: the updated device record, the
boolean the method returns, and the QMP commands sent during the call
(beyond the qmp_capabilities handshake, which lives in connect). -/
structure OpResult where
  device : Device
  ok : Bool
  sent : List QMPCommand
deriving DecidableEq

/-- self.vms.get(name): lookup of a VM by name. -/
def findVM (vms : List VM) (name : String) : Option VM :=
  vms.find? (fun v => v.name == name)

/-- KillSwitchDaemon.attach_device_to_vm (lines 239-287).  A missing target
VM returns False without touching the state; otherwise the state is set to
TRANSITIONING and then, depending on the session outcome, to ERROR (connect
failure, error response, or exception) or ATTACHED (success). -/
def attach_device_to_vm (vms : List VM) (d : Device) (o : QMPOutcome) : OpResult :=
  match findVM vms d.target_vm with
  | none => { device := d, ok := false, sent := [] }
  | some _ =>
    let dT := { d with state := DeviceState.TRANSITIONING }
    match o with
    | QMPOutcome.connectFail =>
        { device := { dT with state := DeviceState.ERROR }, ok := false, sent := [] }
    | QMPOutcome.cmdError =>
        { device := { dT with state := DeviceState.ERROR }, ok := false,
          sent := [attach_command d] }
    | QMPOutcome.cmdException =>
        { device := { dT with state := DeviceState.ERROR }, ok := false,
          sent := [attach_command d] }
    | QMPOutcome.ok =>
        { device := { dT with state := DeviceState.ATTACHED }, ok := true,
          sent := [attach_command d] }

/-- KillSwitchDaemon.detach_device_from_vm (lines 289-321), symmetric to
attach with the device_del command and DETACHED on success. -/
def detach_device_from_vm (vms : List VM) (d : Device) (o : QMPOutcome) : OpResult :=
  match findVM vms d.target_vm with
  | none => { device := d, ok := false, sent := [] }
  | some _ =>
    let dT := { d with state := DeviceState.TRANSITIONING }
    match o with
    | QMPOutcome.connectFail =>
        { device := { dT with state := DeviceState.ERROR }, ok := false, sent := [] }
    | QMPOutcome.cmdError =>
        { device := { dT with state := DeviceState.ERROR }, ok := false,
          sent := [detach_command d] }
    | QMPOutcome.cmdException =>
        { device := { dT with state := DeviceState.ERROR }, ok := false,
          sent := [detach_command d] }
    | QMPOutcome.ok =>
        { device := { dT with state := DeviceState.DETACHED }, ok := true,
          sent := [detach_command d] }

/-- Which of the two per-device operations a sweep applies. -/
inductive OpKind where
  | attachOp
  | detachOp
deriving DecidableEq

/-- Dispatch of a sweep's operation to the per-device method. -/
def runOp : OpKind → List VM → Device → QMPOutcome → OpResult
  | OpKind.attachOp => attach_device_to_vm
  | OpKind.detachOp => detach_device_from_vm

/-- One logged attach/detach attempt: which device, which operation, and
whether the per-device call returned True. -/
structure AttemptEvent where
  device : String
  op : OpKind
  ok : Bool
deriving DecidableEq

/-- Aggregate result of one sweep over the registry: updated device list,
the success_count tallied by toggle_kill_switch, and the trace of attempts
in the order they were made. -/
structure SweepResult where
  devices : List Device
  success_count : Nat
  trace : List AttemptEvent
deriving DecidableEq

/-- The for-loop body of toggle_kill_switch (lines 329-331 / 342-344): one
attach or detach attempt per device, in registry order, tallying successes.
The oracle env gives the session outcome for the device at each registry
position. -/
def sweepGo (k : OpKind) (vms : List VM) (env : Nat → QMPOutcome) :
    List Device → Nat → SweepResult
  | [], _ => { devices := [], success_count := 0, trace := [] }
  | d :: ds, i =>
    let r := runOp k vms d (env i)
    let rest := sweepGo k vms env ds (i + 1)
    { devices := r.device :: rest.devices,
      success_count := (if r.ok then 1 else 0) + rest.success_count,
      trace := { device := d.name, op := k, ok := r.ok } :: rest.trace }

/-- The daemon's mutable state: device registry, VM registry, the global
state_secure flag and the running flag (KillSwitchDaemon.__init__). -/
structure DaemonState where
  devices : List Device
  vms : List VM
  state_secure : Bool
  running : Bool
deriving DecidableEq

/-- KillSwitchDaemon.toggle_kill_switch (lines 323-350).  When secure, an
attach sweep runs and state_secure drops to False only if every attach
succeeded; when not secure, a detach sweep runs and state_secure rises to
True only if every detach succeeded.  The attempt trace is returned too. -/
def toggle_kill_switch (s : DaemonState) (env : Nat → QMPOutcome) :
    DaemonState × List AttemptEvent :=
  if s.state_secure then
    let r := sweepGo OpKind.attachOp s.vms env s.devices 0
    if r.success_count == s.devices.length then
      ({ s with devices := r.devices, state_secure := false }, r.trace)
    else
      ({ s with devices := r.devices }, r.trace)
  else
    let r := sweepGo OpKind.detachOp s.vms env s.devices 0
    if r.success_count == s.devices.length then
      ({ s with devices := r.devices, state_secure := true }, r.trace)
    else
      ({ s with devices := r.devices }, r.trace)

/-- KillSwitchDaemon.signal_handler (lines 375-384): clears running and,
only when state_secure is False, performs one detach attempt per device;
the sweep neither updates state_secure nor tallies successes. -/
def signal_handler (s : DaemonState) (env : Nat → QMPOutcome) :
    DaemonState × List AttemptEvent :=
  let s1 := { s with running := false }
  if !s1.state_secure then
    let r := sweepGo OpKind.detachOp s1.vms env s1.devices 0
    ({ s1 with devices := r.devices }, r.trace)
  else
    (s1, [])

/-- Events in the linearised startup behaviour of KillSwitchDaemon.run. -/
inductive RunEvent where
  | attempt (e : AttemptEvent)
  | monitorEnter
deriving DecidableEq

/-- The startup portion of KillSwitchDaemon.run (lines 394-396): force
state_secure to False, then call toggle_kill_switch once. -/
def run_startup (s : DaemonState) (env : Nat → QMPOutcome) :
    DaemonState × List AttemptEvent :=
  toggle_kill_switch { s with state_secure := false } env

/-- The observable event sequence of KillSwitchDaemon.run up to entering
monitor_kill_switch_trigger: the startup sweep's attempts, then the entry
into the monitoring loop (line 399). -/
def run_trace (s : DaemonState) (env : Nat → QMPOutcome) : List RunEvent :=
  (run_startup s env).2.map RunEvent.attempt ++ [RunEvent.monitorEnter]

/-- One entry of devices.yaml (an audio_devices or video_devices item):
each field is an Option recording whether the key is present.  Python reads
name, type, id and target_vm with mandatory indexing (KeyError aborts the
load) and vendor_id/product_id with .get (absent becomes None). -/
structure DeviceEntry where
  name : Option String
  type : Option String
  id : Option String
  vendor_id : Option String
  product_id : Option String
  target_vm : Option String
deriving DecidableEq

/-- One entry of vms.yaml's virtual_machines list. -/
structure VMEntry where
  name : Option String
  qmp_socket : Option String
  devices : Option (List String)
deriving DecidableEq

/-- The two configuration documents as load_configuration sees them:
device_config.get lists default to empty, vm_config["virtual_machines"]
is a mandatory key (None when absent). -/
structure Config where
  audio_devices : List DeviceEntry
  video_devices : List DeviceEntry
  virtual_machines : Option (List VMEntry)
deriving DecidableEq

/-- DeviceType(value): the enum constructor raising ValueError on any
string other than "pci" or "usb". -/
def deviceTypeOf : String → Option DeviceType
  | "pci" => some DeviceType.PCI
  | "usb" => some DeviceType.USB
  | _ => none

/-- Building one Device from a configuration entry (lines 198-205 and
210-217): any missing mandatory key or unknown type string aborts the
whole load; vendor_id and product_id pass through unchecked. -/
def parseDevice (e : DeviceEntry) : Option Device :=
  match e.name with
  | none => none
  | some n =>
    match e.type with
    | none => none
    | some t =>
      match e.id with
      | none => none
      | some i =>
        match e.target_vm with
        | none => none
        | some tv =>
          match deviceTypeOf t with
          | none => none
          | some dt =>
            some { name := n, device_type := dt, device_id := i,
                   vendor_id := e.vendor_id, product_id := e.product_id,
                   target_vm := tv, state := DeviceState.DETACHED }

/-- Building one VM from a configuration entry (lines 226-230). -/
def parseVM (e : VMEntry) : Option VM :=
  match e.name with
  | none => none
  | some n =>
    match e.qmp_socket with
    | none => none
    | some q =>
      match e.devices with
      | none => none
      | some ds => some { name := n, qmp_socket := q, devices := ds, running := false }

/-- self.devices[device.name] = device on an insertion-ordered dict:
overwrite in place when the key exists, append otherwise. -/
def dictInsertDev (m : List Device) (d : Device) : List Device :=
  if m.any (fun x => x.name == d.name) then
    m.map (fun x => if x.name == d.name then d else x)
  else
    m ++ [d]

/-- self.vms[vm.name] = vm on an insertion-ordered dict. -/
def dictInsertVM (m : List VM) (v : VM) : List VM :=
  if m.any (fun x => x.name == v.name) then
    m.map (fun x => if x.name == v.name then v else x)
  else
    m ++ [v]

/-- The device-loading loops of load_configuration: first failure aborts
the whole load (the exception handler calls sys.exit(1)). -/
def loadDevices : List DeviceEntry → List Device → Option (List Device)
  | [], acc => some acc
  | e :: es, acc =>
    match parseDevice e with
    | none => none
    | some d => loadDevices es (dictInsertDev acc d)

/-- The VM-loading loop of load_configuration. -/
def loadVMs : List VMEntry → List VM → Option (List VM)
  | [], acc => some acc
  | e :: es, acc =>
    match parseVM e with
    | none => none
    | some v => loadVMs es (dictInsertVM acc v)

/-- KillSwitchDaemon.load_configuration (lines 187-237): load audio
devices, then video devices into the same registry, then the VM list; any
failure is fatal (none).  No cross-validation of target_vm against the VM
registry and no USB vendor/product presence check is performed. -/
def load_configuration (cfg : Config) : Option (List Device × List VM) :=
  match loadDevices cfg.audio_devices [] with
  | none => none
  | some devs1 =>
    match loadDevices cfg.video_devices devs1 with
    | none => none
    | some devs =>
      match cfg.virtual_machines with
      | none => none
      | some ventries =>
        match loadVMs ventries [] with
        | none => none
        | some vms => some (devs, vms)

/-- KillSwitchDaemon.__init__ (lines 168-185): registries from
load_configuration, state_secure initialised to False, running True.
A failed load is the process exiting. -/
def initDaemon (cfg : Config) : Option DaemonState :=
  match load_configuration cfg with
  | none => none
  | some p =>
    some { devices := p.1, vms := p.2, state_secure := false, running := true }

/-- How many channels (sockets) a code path opened and how many it
closed before returning. -/
structure ChannelLog where
  opened : Nat
  closed : Nat
deriving DecidableEq

/-- The distinguishable paths through QMPClient.connect (lines 55-73):
socket creation itself raising (no socket exists), an exception after the
socket object was created (connect, recv or send raising), a handshake
response other than an empty return object, or success. -/
inductive ConnectOutcome where
  | sockFail
  | connectErr
  | handshakeRejected
  | ok
deriving DecidableEq

/-- The distinguishable paths through the execute_command round trip made
by attach/detach: an exception, a response carrying an error field, or a
clean response. -/
inductive ExecOutcome where
  | exn
  | errorResp
  | ok
deriving DecidableEq

/-- Channel accounting of QMPClient.connect: every path except sockFail
leaves one socket open, and no path of connect ever closes it; the Bool is
connect's return value (False on every failure, the except clause included). -/
def qmp_connect : ConnectOutcome → ChannelLog × Bool
  | ConnectOutcome.sockFail => ({ opened := 0, closed := 0 }, false)
  | ConnectOutcome.connectErr => ({ opened := 1, closed := 0 }, false)
  | ConnectOutcome.handshakeRejected => ({ opened := 1, closed := 0 }, false)
  | ConnectOutcome.ok => ({ opened := 1, closed := 0 }, true)

/-- Channel accounting of one attach/detach call (lines 248-287 and
297-321): when connect returns False the method returns at once without
calling disconnect; when execute_command raises, the except clause runs
and disconnect is never reached; only the two paths that pass line
273/307 (clean response or error response) call disconnect. -/
def attachChannelLog (co : ConnectOutcome) (eo : ExecOutcome) : ChannelLog :=
  let r := qmp_connect co
  if !r.2 then
    r.1
  else
    match eo with
    | ExecOutcome.exn => r.1
    | ExecOutcome.errorResp => { r.1 with closed := r.1.closed + 1 }
    | ExecOutcome.ok => { r.1 with closed := r.1.closed + 1 }

/-- A sample VM used by concrete instances below. -/
def vmA : VM :=
  { name := "vm-a", qmp_socket := "/run/qmp-a.sock", devices := ["mic one"], running := false }

/-- A sample USB device whose target VM is configured. -/
def micDev : Device :=
  { name := "mic one", device_type := DeviceType.USB, device_id := "1",
    vendor_id := some "046d", product_id := some "0825",
    target_vm := "vm-a", state := DeviceState.DETACHED }

/-- A sample USB device with no vendor/product ids whose target VM does
not exist in any registry. -/
def ghostDev : Device :=
  { name := "ghost dev", device_type := DeviceType.USB, device_id := "2",
    vendor_id := none, product_id := none,
    target_vm := "ghost", state := DeviceState.DETACHED }

/-- Oracle under which every session succeeds. -/
def envOk : Nat → QMPOutcome := fun _ => QMPOutcome.ok

/-- A daemon state holding one device, currently secure. -/
def secureStateOne : DaemonState :=
  { devices := [micDev], vms := [vmA], state_secure := true, running := true }

/-- A daemon state holding one device, currently operational (not secure). -/
def operationalStateOne : DaemonState :=
  { devices := [micDev], vms := [vmA], state_secure := false, running := true }

/-- A device-free daemon state, currently secure. -/
def emptyState : DaemonState :=
  { devices := [], vms := [], state_secure := true, running := true }

/-- The configuration entry for ghostDev: USB with no vendor/product ids,
targeting a VM absent from the VM document. -/
def ghostEntry : DeviceEntry :=
  { name := some "ghost dev", type := some "usb", id := some "2",
    vendor_id := none, product_id := none, target_vm := some "ghost" }

/-- A configuration containing only ghostEntry and an empty VM list. -/
def ghostCfg : Config :=
  { audio_devices := [ghostEntry], video_devices := [], virtual_machines := some [] }

/-- A PCI configuration entry lacking its id (bus address) key. -/
def noIdEntry : DeviceEntry :=
  { name := some "cam", type := some "pci", id := none,
    vendor_id := none, product_id := none, target_vm := some "vm-a" }

/-- A configuration whose single device entry lacks the id key. -/
def noIdCfg : Config :=
  { audio_devices := [noIdEntry], video_devices := [], virtual_machines := some [] }

/-- An empty configuration (both documents present but listing nothing). -/
def emptyCfg : Config :=
  { audio_devices := [], video_devices := [], virtual_machines := some [] }

/-- Lookup of one keyword argument in a QMP command's argument list. -/
def argLookup (k : String) (args : List (String × String)) : Option String :=
  (args.find? (fun p => p.1 == k)).map Prod.snd

/-- A sweep logs one attempt per registry entry, in registry order. -/
theorem sweepGo_trace_devices (k : OpKind) (vms : List VM) (env : Nat → QMPOutcome)
    (ds : List Device) : ∀ (i : Nat),
    (sweepGo k vms env ds i).trace.map AttemptEvent.device = ds.map Device.name := by
  induction ds with
  | nil => intro i; rfl
  | cons d ds ih => intro i; simp [sweepGo, ih]

/-- Every attempt logged by a sweep carries the sweep's operation. -/
theorem sweepGo_trace_op (k : OpKind) (vms : List VM) (env : Nat → QMPOutcome)
    (ds : List Device) : ∀ (i : Nat) (e : AttemptEvent),
    e ∈ (sweepGo k vms env ds i).trace → e.op = k := by
  induction ds with
  | nil => intro i e he; cases he
  | cons d ds ih =>
      intro i e he
      simp only [sweepGo, List.mem_cons] at he
      rcases he with he | he
      · rw [he]
      · exact ih (i + 1) e he

/-- toggle_kill_switch's attempt trace is the trace of the sweep selected
by the current state_secure value, whatever the success count was. -/
theorem toggle_trace (s : DaemonState) (env : Nat → QMPOutcome) :
    (toggle_kill_switch s env).2 =
      (sweepGo (if s.state_secure then OpKind.attachOp else OpKind.detachOp)
        s.vms env s.devices 0).trace := by
  unfold toggle_kill_switch
  cases hs : s.state_secure <;> simp <;> split <;> rfl

/-- Claim C5: for every registry of N configured devices and any
combination of per-device outcomes, a single toggle invocation performs
exactly N attach attempts (when moving out of secure state) or exactly N
detach attempts (when moving into secure state), one per device in
registry order, with no early abort on an individual device's failure. -/
theorem c5_full_sweep (s : DaemonState) (env : Nat → QMPOutcome) :
    (toggle_kill_switch s env).2.length = s.devices.length ∧
    (toggle_kill_switch s env).2.map AttemptEvent.device = s.devices.map Device.name ∧
    ∀ e ∈ (toggle_kill_switch s env).2,
      e.op = if s.state_secure then OpKind.attachOp else OpKind.detachOp := by
  have hm := sweepGo_trace_devices
    (if s.state_secure then OpKind.attachOp else OpKind.detachOp) s.vms env s.devices 0
  have ho := sweepGo_trace_op
    (if s.state_secure then OpKind.attachOp else OpKind.detachOp) s.vms env s.devices 0
  rw [toggle_trace]
  refine ⟨?_, hm, ho⟩
  have hlen := congrArg List.length hm
  simpa using hlen

/-- Witness for c5_full_sweep at a concrete secure one-device state. -/
theorem c5_full_sweep_witness :
    (toggle_kill_switch secureStateOne envOk).2.length = secureStateOne.devices.length :=
  (c5_full_sweep secureStateOne envOk).1

/-- Claim C2: on an attach sweep state_secure drops to false exactly when
the success count equals the number of configured devices, and otherwise
is left unchanged (true); symmetrically a detach sweep raises state_secure
to true exactly when every detach succeeded. -/
theorem c2_secure_transition (s : DaemonState) (env : Nat → QMPOutcome) :
    (s.state_secure = true →
      ((toggle_kill_switch s env).1.state_secure = false ↔
        (sweepGo OpKind.attachOp s.vms env s.devices 0).success_count = s.devices.length)) ∧
    (s.state_secure = false →
      ((toggle_kill_switch s env).1.state_secure = true ↔
        (sweepGo OpKind.detachOp s.vms env s.devices 0).success_count = s.devices.length)) := by
  constructor <;> intro hs <;> unfold toggle_kill_switch <;> rw [hs] <;> simp <;>
    split <;> simp_all

/-- Witness for c2_secure_transition: one secure device, all sessions
succeed, so the toggle attaches it and drops state_secure. -/
theorem c2_secure_transition_witness :
    (toggle_kill_switch secureStateOne envOk).1.state_secure = false :=
  ((c2_secure_transition secureStateOne envOk).1 rfl).mpr (by decide)

/-- Claim C10: with zero configured devices every toggle counts 0 of 0
successes, hence unconditionally flips state_secure and logs full
success (no attempts are made). -/
theorem c10_empty_registry (s : DaemonState) (env : Nat → QMPOutcome)
    (h : s.devices = []) :
    (toggle_kill_switch s env).1.state_secure = !s.state_secure ∧
    (toggle_kill_switch s env).2 = [] := by
  cases hs : s.state_secure <;> simp [toggle_kill_switch, hs, h, sweepGo]

/-- Witness for c10_empty_registry at the concrete empty secure state. -/
theorem c10_empty_registry_witness :
    (toggle_kill_switch emptyState envOk).1.state_secure = !emptyState.state_secure :=
  (c10_empty_registry emptyState envOk rfl).1

/-- Claim C1 as stated is false: in a state already holding
state_secure = true with one configured device, the shutdown handler
performs zero detach attempts instead of one per device. -/
theorem c1_counterexample :
    (signal_handler secureStateOne envOk).2 = [] ∧
    secureStateOne.devices.length = 1 :=
  ⟨rfl, rfl⟩

/-- Claim C1 (amended): on a shutdown signal the daemon clears running
and performs the detach sweep (one attempt per configured device, in
registry order) exactly when state_secure is false at signal time; when
state_secure is already true it performs no detach attempts. -/
theorem c1_shutdown_sweep (s : DaemonState) (env : Nat → QMPOutcome) :
    (signal_handler s env).1.running = false ∧
    (s.state_secure = false →
      (signal_handler s env).2.map AttemptEvent.device = s.devices.map Device.name ∧
      ∀ e ∈ (signal_handler s env).2, e.op = OpKind.detachOp) ∧
    (s.state_secure = true → (signal_handler s env).2 = []) := by
  cases hs : s.state_secure
  · refine ⟨by simp [signal_handler, hs], fun _ => ⟨?_, ?_⟩, fun hc => by simp at hc⟩
    · simp [signal_handler, hs, sweepGo_trace_devices]
    · simp only [signal_handler, hs]
      simp
      exact sweepGo_trace_op OpKind.detachOp s.vms env s.devices 0
  · exact ⟨by simp [signal_handler, hs], fun hc => by simp at hc,
      fun _ => by simp [signal_handler, hs]⟩

/-- Witness for c1_shutdown_sweep at a concrete operational one-device
state: the shutdown sweep attempts exactly its one device. -/
theorem c1_shutdown_sweep_witness :
    (signal_handler operationalStateOne envOk).2.map AttemptEvent.device =
      operationalStateOne.devices.map Device.name :=
  ((c1_shutdown_sweep operationalStateOne envOk).2.1 rfl).1

/-- Claim C9: startup performs exactly one detach sweep over all
configured devices (one attempt per device, in registry order) before the
daemon enters the trigger-monitoring loop, independent of configuration
content and of the state_secure value the daemon held before. -/
theorem c9_startup_before_monitor (s : DaemonState) (env : Nat → QMPOutcome) :
    ∃ tr : List AttemptEvent,
      run_trace s env = tr.map RunEvent.attempt ++ [RunEvent.monitorEnter] ∧
      tr.map AttemptEvent.device = s.devices.map Device.name ∧
      ∀ e ∈ tr, e.op = OpKind.detachOp := by
  refine ⟨(run_startup s env).2, rfl, ?_, ?_⟩
  · unfold run_startup
    rw [toggle_trace]
    simpa using sweepGo_trace_devices OpKind.detachOp s.vms env s.devices 0
  · unfold run_startup
    rw [toggle_trace]
    simpa using sweepGo_trace_op OpKind.detachOp s.vms env s.devices 0

/-- Witness for c9_startup_before_monitor at a concrete one-device state. -/
theorem c9_startup_before_monitor_witness :
    ∃ tr : List AttemptEvent,
      run_trace secureStateOne envOk = tr.map RunEvent.attempt ++ [RunEvent.monitorEnter] ∧
      tr.map AttemptEvent.device = secureStateOne.devices.map Device.name ∧
      ∀ e ∈ tr, e.op = OpKind.detachOp :=
  c9_startup_before_monitor secureStateOne envOk

/-- Claim C3 as stated is false: the daemon constructor leaves
state_secure = false, so there is a start state with secure not true. -/
theorem c3_counterexample :
    ∃ s, initDaemon emptyCfg = some s ∧ s.state_secure ≠ true :=
  ⟨{ devices := [], vms := [], state_secure := false, running := true },
    rfl, by simp⟩

/-- Claim C3 (amended): at daemon start the global secure flag is
initialised to false regardless of configuration content; run then forces
it to false again and immediately performs the startup detach sweep,
which raises it to true only when every detach succeeds. -/
theorem c3_init_insecure (cfg : Config) (s : DaemonState)
    (h : initDaemon cfg = some s) : s.state_secure = false := by
  unfold initDaemon at h
  cases hl : load_configuration cfg with
  | none => rw [hl] at h; cases h
  | some p =>
      rw [hl] at h
      simp only [Option.some.injEq] at h
      subst h
      rfl

/-- Witness for c3_init_insecure at the concrete empty configuration. -/
theorem c3_init_insecure_witness :
    DaemonState.state_secure
      { devices := [], vms := [], state_secure := false, running := true } = false :=
  c3_init_insecure emptyCfg
    { devices := [], vms := [], state_secure := false, running := true } rfl

/-- A device entry missing any mandatory key fails to parse. -/
theorem parseDevice_eq_none (e : DeviceEntry)
    (h : e.name = none ∨ e.type = none ∨ e.id = none ∨ e.target_vm = none) :
    parseDevice e = none := by
  unfold parseDevice
  rcases hn : e.name with _ | n
  · rfl
  rcases ht : e.type with _ | t
  · rfl
  rcases hi : e.id with _ | i
  · rfl
  rcases hv : e.target_vm with _ | tv
  · rfl
  · rw [hn, ht, hi, hv] at h
    simp at h

/-- The device-loading loop aborts whenever any entry fails to parse. -/
theorem loadDevices_eq_none :
    ∀ (es : List DeviceEntry) (acc : List Device) (e : DeviceEntry),
      e ∈ es → parseDevice e = none → loadDevices es acc = none
  | [], _, _, hmem, _ => absurd hmem (List.not_mem_nil _)
  | e0 :: es, acc, e, hmem, hpe => by
      unfold loadDevices
      cases hp : parseDevice e0 with
      | none => rfl
      | some d =>
        rcases List.mem_cons.mp hmem with he | he
        · rw [he] at hpe
          rw [hpe] at hp
          exact Option.noConfusion hp
        · exact loadDevices_eq_none es (dictInsertDev acc d) e he hpe

/-- Claim C4 as stated is false: ghostCfg holds a USB device without
vendor/product identifiers whose target_vm names no configured VM, yet
configuration loading succeeds. -/
theorem c4_counterexample :
    load_configuration ghostCfg = some ([ghostDev], []) :=
  rfl

/-- Claim C4 (amended): configuration loading fails fast whenever a
device entry omits a mandatory key (name, type, the id holding the bus
address, or target_vm); it performs no cross-check of target_vm against
the VM registry and never requires USB vendor/product identifiers, as the
successful load of ghostCfg shows. -/
theorem c4_load_validation (cfg : Config) (e : DeviceEntry)
    (hmem : e ∈ cfg.audio_devices ∨ e ∈ cfg.video_devices)
    (hmiss : e.name = none ∨ e.type = none ∨ e.id = none ∨ e.target_vm = none) :
    load_configuration cfg = none ∧ load_configuration ghostCfg ≠ none := by
  have hpe := parseDevice_eq_none e hmiss
  constructor
  · unfold load_configuration
    rcases hmem with h | h
    · rw [loadDevices_eq_none cfg.audio_devices [] e h hpe]
    · cases ha : loadDevices cfg.audio_devices [] with
      | none => rfl
      | some devs1 =>
          dsimp only
          rw [loadDevices_eq_none cfg.video_devices devs1 e h hpe]
  · intro hc
    exact Option.noConfusion (c4_counterexample ▸ hc)

/-- Witness for c4_load_validation: the configuration whose only device
entry lacks its id key is rejected. -/
theorem c4_load_validation_witness :
    load_configuration noIdCfg = none :=
  (c4_load_validation noIdCfg noIdEntry (Or.inl (List.mem_singleton.mpr rfl))
    (Or.inr (Or.inr (Or.inl rfl)))).1

/-- Claim C6 as stated is false: an attach attempt against a device whose
target VM is not configured fails (returns false) yet leaves the device
state DETACHED rather than ERROR. -/
theorem c6_counterexample :
    (attach_device_to_vm [] ghostDev QMPOutcome.ok).ok = false ∧
    (attach_device_to_vm [] ghostDev QMPOutcome.ok).device.state = DeviceState.DETACHED :=
  ⟨rfl, rfl⟩

/-- Claim C6 (amended): when the target VM resolves, a successful attach
leaves ATTACHED, a successful detach leaves DETACHED and any failure
leaves ERROR; when the target VM is missing the call returns false with
the device record unchanged; consequently a device whose state was not
TRANSITIONING at entry is never TRANSITIONING at return. -/
theorem c6_state_outcomes (vms : List VM) (d : Device) (o : QMPOutcome) :
    ((findVM vms d.target_vm).isSome = true →
      ((attach_device_to_vm vms d o).ok = true →
        (attach_device_to_vm vms d o).device.state = DeviceState.ATTACHED) ∧
      ((attach_device_to_vm vms d o).ok = false →
        (attach_device_to_vm vms d o).device.state = DeviceState.ERROR) ∧
      ((detach_device_from_vm vms d o).ok = true →
        (detach_device_from_vm vms d o).device.state = DeviceState.DETACHED) ∧
      ((detach_device_from_vm vms d o).ok = false →
        (detach_device_from_vm vms d o).device.state = DeviceState.ERROR)) ∧
    (findVM vms d.target_vm = none →
      attach_device_to_vm vms d o = { device := d, ok := false, sent := [] } ∧
      detach_device_from_vm vms d o = { device := d, ok := false, sent := [] }) ∧
    (d.state ≠ DeviceState.TRANSITIONING →
      (attach_device_to_vm vms d o).device.state ≠ DeviceState.TRANSITIONING ∧
      (detach_device_from_vm vms d o).device.state ≠ DeviceState.TRANSITIONING) := by
  cases hf : findVM vms d.target_vm <;> cases o <;>
    simp [attach_device_to_vm, detach_device_from_vm, hf]

/-- Witness for c6_state_outcomes: a successful attach of the sample USB
device to its configured VM ends in ATTACHED. -/
theorem c6_state_outcomes_witness :
    (attach_device_to_vm [vmA] micDev QMPOutcome.ok).device.state = DeviceState.ATTACHED :=
  (((c6_state_outcomes [vmA] micDev QMPOutcome.ok).1 (by decide)).1) rfl

/-- Claim C7: the code leaks the channel.  When connect raises after the
socket object exists, or when execute_command raises, the attach/detach
call returns with the channel still open (closed = 0); only the paths
reaching the disconnect call after the command round-trip close it. -/
theorem c7_channel_leak :
    attachChannelLog ConnectOutcome.connectErr ExecOutcome.ok = { opened := 1, closed := 0 } ∧
    attachChannelLog ConnectOutcome.handshakeRejected ExecOutcome.ok = { opened := 1, closed := 0 } ∧
    attachChannelLog ConnectOutcome.ok ExecOutcome.exn = { opened := 1, closed := 0 } ∧
    attachChannelLog ConnectOutcome.ok ExecOutcome.errorResp = { opened := 1, closed := 1 } ∧
    attachChannelLog ConnectOutcome.ok ExecOutcome.ok = { opened := 1, closed := 1 } :=
  ⟨rfl, rfl, rfl, rfl, rfl⟩

/-- Claim C8: the id argument of the device_del command issued at detach
equals the id argument of the device_add command issued at attach, and
both are the kind tag, a hyphen, and the space-sanitized device name. -/
theorem c8_identifier_symmetry (d : Device) :
    argLookup "id" (detach_command d).args = argLookup "id" (attach_command d).args ∧
    argLookup "id" (detach_command d).args =
      some (kindTag d.device_type ++ "-" ++ sanitizeName d.name) := by
  obtain ⟨nm, dt, di, vi, pids, tv, st⟩ := d
  cases dt
  · exact ⟨rfl, rfl⟩
  · exact ⟨rfl, rfl⟩
